import Mathlib

/-!
Verification of the request-orchestration and media-pipeline layer of the
MK-Anti-Captcha application against its natural-language specification.

The definitions below are a shallow embedding of the relevant source files:
  * `src/server/index.js`   — media relay (`/api/veo/download-video`) and the
    media combiner (`/api/video/combine`);
  * `src/services/apiClient.ts` — proxy-URL selection, credential resolution,
    captcha solving, slot reservation, request dispatch and classification;
  * `src/components/views/Nanobanana2GenerationView.tsx` — parallel sibling
    endpoint sampling (`handleGenerate`).

JavaScript truthiness on strings (null/undefined/"" are falsy) is modelled by
`jsOpt`/`jsOrStr`; `String.prototype.includes` by `strIncludes`; thrown
exceptions by explicit result constructors; side effects (slot reservation,
usage recording, unlink calls) by boolean/list fields of an explicit trace.
-/

/-- JavaScript truthiness for an optional string: `null`/`undefined`/`""` are
falsy and collapse to `none`. -/
def jsOpt : Option String → Option String
  | none => none
  | some s => if s.isEmpty then none else some s

/-- JavaScript `a || d` for an optional string `a` and default `d`. -/
def jsOrStr (o : Option String) (d : String) : String := (jsOpt o).getD d

/-- JavaScript `s.trim()`: strip leading and trailing whitespace
(character-list implementation, so it evaluates inside the kernel). -/
def strTrim (s : String) : String :=
  ⟨((s.data.dropWhile Char.isWhitespace).reverse.dropWhile Char.isWhitespace).reverse⟩

/-- JavaScript `s.toLowerCase()` (character-list implementation). -/
def strToLower (s : String) : String := ⟨s.data.map Char.toLower⟩

/-- JavaScript `s.substring(0, n)` (character-list implementation). -/
def strTake (s : String) (n : Nat) : String := ⟨s.data.take n⟩

/-- `pat` occurs as a contiguous segment of `l`. -/
def charsInclude (pat : List Char) : List Char → Bool
  | [] => pat.isEmpty
  | c :: t => pat.isPrefixOf (c :: t) || charsInclude pat t

/-- JavaScript `s.includes(pat)`: `pat` occurs as a contiguous substring. -/
def strIncludes (s pat : String) : Bool := charsInclude pat.data s.data

/-! ### Media Combiner Pipeline (`POST /api/video/combine`, src/server/index.js) -/

/-- The nondeterministic environment a single combine request runs in:
the uploaded temp files multer has already written to the temp directory,
whether the ffmpeg binary answers `-version`, whether the concat subprocess
exits 0, and whether the declared output file exists after the run. -/
structure CombineEnv where
  files : List String
  ffmpegAvailable : Bool
  ffmpegRunSucceeds : Bool
  outputCreated : Bool
  now : Nat
  deriving DecidableEq, Repr

/-- The response sent by the combine handler, abstracted to the fields the
spec talks about. -/
structure CombineResponse where
  status : Nat
  hasErrorField : Bool
  hasSuggestionField : Bool
  isVideo : Bool
  deriving DecidableEq, Repr

/-- Result of one combine request: the response, every temp path the handler
attempted to `unlinkSync` before the response was sent, and every temp file
that actually existed on disk for this job (uploads, plus the output when the
encoder created it). -/
structure CombineResult where
  response : CombineResponse
  unlinked : List String
  created : List String
  deriving DecidableEq, Repr

/-- The output path `join(tmpdir(), "combined-" + Date.now() + ".mp4")`. -/
def combineOutputPath (now : Nat) : String := "combined-" ++ toString now ++ ".mp4"

/-- Shallow embedding of the `app.post('/api/video/combine')` handler.

Source trace (src/server/index.js:544-643):
  * fewer than 2 files → `400 {error}` with no cleanup;
  * ffmpeg unavailable → unlink every uploaded file, then
    `503 {error, suggestion}`;
  * subprocess failure or missing output → catch block unlinks `tempFiles`
    (uploads and output path), then `500 {error}`;
  * success → unlink `tempFiles`, then send the video buffer. -/
def combineHandler (env : CombineEnv) : CombineResult :=
  let outputPath := combineOutputPath env.now
  if env.files.length < 2 then
    { response := { status := 400, hasErrorField := true, hasSuggestionField := false,
                    isVideo := false },
      unlinked := [], created := env.files }
  else if !env.ffmpegAvailable then
    { response := { status := 503, hasErrorField := true, hasSuggestionField := true,
                    isVideo := false },
      unlinked := env.files, created := env.files }
  else
    -- tempFiles := uploaded inputs ++ [outputPath]; the encoder runs next.
    let tempFiles := env.files ++ [outputPath]
    let created := env.files ++ (if env.outputCreated then [outputPath] else [])
    if !env.ffmpegRunSucceeds then
      { response := { status := 500, hasErrorField := true, hasSuggestionField := false,
                      isVideo := false },
        unlinked := tempFiles, created := created }
    else if !env.outputCreated then
      { response := { status := 500, hasErrorField := true, hasSuggestionField := false,
                      isVideo := false },
        unlinked := tempFiles, created := created }
    else
      { response := { status := 200, hasErrorField := false, hasSuggestionField := false,
                      isVideo := true },
        unlinked := tempFiles, created := created }

/-- Temp files of the job still on disk when the response is sent: those that
existed but were never the target of an unlink attempt. -/
def leftoverFiles (r : CombineResult) : List String :=
  r.created.filter (fun f => !(r.unlinked.contains f))

example :
    leftoverFiles (combineHandler
      { files := ["up1"], ffmpegAvailable := true, ffmpegRunSucceeds := true,
        outputCreated := true, now := 7 }) = ["up1"] := by decide

example :
    leftoverFiles (combineHandler
      { files := ["up1", "up2"], ffmpegAvailable := false, ffmpegRunSucceeds := true,
        outputCreated := false, now := 7 }) = [] := by decide

example :
    leftoverFiles (combineHandler
      { files := ["up1", "up2"], ffmpegAvailable := true, ffmpegRunSucceeds := false,
        outputCreated := true, now := 7 }) = [] := by decide

/-! ### Media Relay (`GET /api/veo/download-video`, src/server/index.js:477-531) -/

/-- What happens when the relay pipes the upstream body to the client:
the stream either completes, or raises mid-stream (with or without the
response headers having been flushed to the client by then). -/
inductive StreamOutcome where
  | completes
  | errorsMid (headersSent : Bool)
  deriving DecidableEq, Repr

/-- Outcome of `fetch(videoUrl)` for the relay:
the fetch call itself throws, or it resolves with a non-2xx status and a
readable text body, or it resolves OK with optional content-type /
content-length headers and a body stream. -/
inductive UpstreamOutcome where
  | fetchThrows (msg : String)
  | notOk (status : Nat) (statusText : String) (body : String)
  | ok (contentType : Option String) (contentLength : Option String) (stream : StreamOutcome)
  deriving DecidableEq, Repr

/-- Environment of one relay request: the `url` query parameter and the
upstream behaviour. -/
structure RelayEnv where
  urlParam : Option String
  upstream : UpstreamOutcome
  deriving DecidableEq, Repr

/-- `res.json({error, details?})` body text, as `JSON.stringify` renders it
for plain string fields. -/
def relayErrorBodyText (error : String) (details : Option String) : String :=
  match details with
  | none => "\x7b\"error\":\"" ++ error ++ "\"\x7d"
  | some d => "\x7b\"error\":\"" ++ error ++ "\",\"details\":\"" ++ d ++ "\"\x7d"

/-- One transmission the relay handler makes on the response object:
either a JSON error response with a status code, or the streamed video
response (headers then piped bytes, possibly cut off mid-stream). -/
inductive RelayReply where
  | jsonReply (status : Nat) (body : String)
  | streamReply (contentType : String) (hasLength : Bool) (completed : Bool)
  deriving DecidableEq, Repr

/-- Shallow embedding of the `app.get('/api/veo/download-video')` handler.
Returns the sequence of responses written to the client (the connection
simply ends after them).

Source trace:
  * missing/non-string `url` → `400 {error: 'Video URL is required'}`;
  * `fetch` throws → catch block: headers not sent, so `500 {error}`;
  * upstream non-2xx → `res.status(upstream status)` with
    `{error: 'Failed to download: ' + statusText, details: body}`;
  * upstream OK → content-type (default `video/mp4`), optional
    content-length, then `response.body.pipe(res)`; a pipe error after
    headers are sent writes nothing more, before headers it writes a
    `500 {error: 'Error streaming video'}`. -/
def relayHandler (env : RelayEnv) : List RelayReply :=
  match jsOpt env.urlParam with
  | none => [RelayReply.jsonReply 400 (relayErrorBodyText "Video URL is required" none)]
  | some _ =>
    match env.upstream with
    | .fetchThrows msg => [RelayReply.jsonReply 500 (relayErrorBodyText msg none)]
    | .notOk status statusText body =>
        [RelayReply.jsonReply status
          (relayErrorBodyText ("Failed to download: " ++ statusText) (some body))]
    | .ok contentType contentLength stream =>
        let ct := contentType.getD "video/mp4"
        match stream with
        | .completes => [RelayReply.streamReply ct contentLength.isSome true]
        | .errorsMid headersSent =>
            if headersSent then
              [RelayReply.streamReply ct contentLength.isSome false]
            else
              [RelayReply.jsonReply 500 (relayErrorBodyText "Error streaming video" none)]

example :
    relayHandler { urlParam := some "https://storage/x.mp4",
                   upstream := .notOk 404 "Not Found" "B" } =
      [RelayReply.jsonReply 404 (relayErrorBodyText "Failed to download: Not Found" (some "B"))] := by
  decide

/-! ### Client data model (src/services/apiClient.ts) -/

/-- The `serviceType` argument of `executeProxiedRequest`. -/
inductive ServiceType where
  | veo | imagen | nanobanana
  deriving DecidableEq, Repr

/-- String form used when building `/api/<service>` paths. -/
def serviceTypeStr : ServiceType → String
  | .veo => "veo"
  | .imagen => "imagen"
  | .nanobanana => "nanobanana"

/-- The `currentUser` object parsed from `localStorage`. A JS field that is
`null`/`undefined` is `none`. -/
structure LocalUser where
  id : String
  username : Option String
  personalAuthToken : Option String
  recaptchaToken : Option String
  deriving DecidableEq, Repr

/-- A `token_ultra_registrations` row as the client sees it. -/
structure TokenUltraRegistration where
  status : String
  expiresAt : Nat
  allowMasterToken : Option Bool
  deriving DecidableEq, Repr

/-- The top-level `clientContext` object of a request payload. -/
structure ClientContext where
  recaptchaToken : Option String
  sessionId : Option String
  projectId : Option String
  deriving DecidableEq, Repr

/-- A request payload, restricted to the parts the dispatcher reads or
writes: the top-level `clientContext` and `requests[0].clientContext.projectId`. -/
structure Payload where
  clientContext : Option ClientContext
  firstRequestProjectId : Option String
  deriving DecidableEq, Repr

/-- The body of the proxied `fetch` response: either text that parses as
JSON (with the `error.message` and `message` fields the client reads), or
raw non-JSON text. -/
inductive BodyParse where
  | parsed (errMsg : Option String) (msg : Option String)
  | raw (text : String)
  deriving DecidableEq, Repr

/-- Outcome of the single outbound `fetch` of a dispatch. -/
inductive FetchOutcome where
  | networkError (msg : String)
  | response (status : Nat) (body : BodyParse)
  deriving DecidableEq, Repr

/-- The environment one dispatch runs in: platform flags, browser storage
contents, backing-store answers, the captcha solver's answer and the
outbound call's outcome. -/
structure ClientEnv where
  isElectron : Bool
  isLocalhostHost : Bool
  localhostUrl : String
  selectedProxyServer : Option String
  currentUserJson : Option LocalUser
  dbPersonalToken : Option String
  storedProjectId : Option String
  cachedUltraReg : Option TokenUltraRegistration
  ultraFetchResult : Option TokenUltraRegistration
  masterTokenCache : Option String
  masterTokenFetch : Option String
  solveResult : Option String
  now : Nat
  fetchOutcome : FetchOutcome
  recordFails : Bool
  deriving DecidableEq, Repr

/-- `getVeoProxyUrl` (src/services/apiClient.ts:10-36). -/
def getVeoProxyUrl (env : ClientEnv) : String :=
  if env.isElectron then env.localhostUrl
  else if env.isLocalhostHost then
    match jsOpt env.selectedProxyServer with
    | none => env.localhostUrl
    | some sel => if sel == env.localhostUrl then env.localhostUrl else sel
  else
    match jsOpt env.selectedProxyServer with
    | some sel => sel
    | none => "https://s1.monoklix.com"

/-- `getImagenProxyUrl` (src/services/apiClient.ts:38-60); same selection
logic as Veo. -/
def getImagenProxyUrl (env : ClientEnv) : String :=
  if env.isElectron then env.localhostUrl
  else if env.isLocalhostHost then
    match jsOpt env.selectedProxyServer with
    | none => env.localhostUrl
    | some sel => if sel == env.localhostUrl then env.localhostUrl else sel
  else
    match jsOpt env.selectedProxyServer with
    | some sel => sel
    | none => "https://s1.monoklix.com"

/-- `getNanobanana2ProxyUrl` (src/services/apiClient.ts:62-85); same
selection logic as Veo/Imagen. -/
def getNanobanana2ProxyUrl (env : ClientEnv) : String :=
  if env.isElectron then env.localhostUrl
  else if env.isLocalhostHost then
    match jsOpt env.selectedProxyServer with
    | none => env.localhostUrl
    | some sel => if sel == env.localhostUrl then env.localhostUrl else sel
  else
    match jsOpt env.selectedProxyServer with
    | some sel => sel
    | none => "https://s1.monoklix.com"

/-- `getPersonalTokenLocal`: the personal token cached in `localStorage`,
accepted only when it is a nonempty (post-trim) string. -/
def getPersonalTokenLocal (env : ClientEnv) : Option String :=
  match env.currentUserJson with
  | none => none
  | some user =>
    match user.personalAuthToken with
    | none => none
    | some t => if (strTrim t).length > 0 then some t else none

/-- `getFreshPersonalTokenFromDB`: re-fetch of the personal token from the
backing profile store; requires a stored user with an id, and a non-falsy
token in the store's answer. -/
def getFreshPersonalTokenFromDB (env : ClientEnv) : Option String :=
  match env.currentUserJson with
  | none => none
  | some user => if user.id.isEmpty then none else jsOpt env.dbPersonalToken

/-- `getCurrentUserInternal`: the stored user, accepted only with a
truthy id. -/
def getCurrentUserInternal (env : ClientEnv) : Option LocalUser :=
  match env.currentUserJson with
  | none => none
  | some user => if user.id.isEmpty then none else some user

/-- Observable behaviour of one captcha-adapter call: whether `solveCaptcha`
was invoked, with which API key and project id, whether that key was the
pooled master key, and the token produced (`none` for null or a caught
exception). -/
structure CaptchaTrace where
  solveCalled : Bool
  keyUsed : Option String
  usedMasterKey : Bool
  projectIdUsed : Option String
  token : Option String
  deriving DecidableEq, Repr

/-- `getPersonalRecaptchaToken` (src/services/apiClient.ts:289-335):
personal-key-only captcha solve for NANOBANANA PRO; a missing user or a
blank personal key yields `null` without calling the solver, and the master
key is never consulted. -/
def getPersonalRecaptchaToken (env : ClientEnv) (projectId : Option String) : CaptchaTrace :=
  match getCurrentUserInternal env with
  | none =>
    { solveCalled := false, keyUsed := none, usedMasterKey := false,
      projectIdUsed := none, token := none }
  | some currentUser =>
    let personalKey := jsOrStr currentUser.recaptchaToken ""
    if (strTrim personalKey).isEmpty then
      { solveCalled := false, keyUsed := none, usedMasterKey := false,
        projectIdUsed := none, token := none }
    else
      let finalProjectId := jsOpt projectId <|> jsOpt env.storedProjectId
      { solveCalled := true, keyUsed := some (strTrim personalKey), usedMasterKey := false,
        projectIdUsed := finalProjectId, token := env.solveResult }

/-- `getRecaptchaToken` (src/services/apiClient.ts:165-281): captcha solve
that may use the pooled master key for an active, not-opted-out Token Ultra
registration (cached registration first, then a store lookup; cached master
key first, then a fetched one), and otherwise falls back to the caller's
personal key. -/
def getRecaptchaToken (env : ClientEnv) (projectId : Option String) : CaptchaTrace :=
  match getCurrentUserInternal env with
  | none =>
    { solveCalled := false, keyUsed := none, usedMasterKey := false,
      projectIdUsed := none, token := none }
  | some currentUser =>
    let personalKey := jsOrStr currentUser.recaptchaToken ""
    let tokenUltraReg : Option TokenUltraRegistration :=
      match env.cachedUltraReg with
      | some r => some r
      | none => env.ultraFetchResult
    let fetchedMaster : String × Bool :=
      match jsOpt env.masterTokenFetch with
      | some k => (k, true)
      | none => (personalKey, false)
    let keyChoice : String × Bool :=
      match tokenUltraReg with
      | none => (personalKey, false)
      | some reg =>
        let isActive := reg.status == "active" && decide (env.now < reg.expiresAt)
        if isActive then
          if reg.allowMasterToken == some false then (personalKey, false)
          else
            match env.masterTokenCache with
            | some m => if (strTrim m).isEmpty then fetchedMaster else (m, true)
            | none => fetchedMaster
        else (personalKey, false)
    let apiKey := keyChoice.1
    if (strTrim apiKey).isEmpty then
      { solveCalled := false, keyUsed := none, usedMasterKey := false,
        projectIdUsed := none, token := none }
    else
      let finalProjectId := jsOpt projectId <|> jsOpt env.storedProjectId
      { solveCalled := true, keyUsed := some (strTrim apiKey), usedMasterKey := keyChoice.2,
        projectIdUsed := finalProjectId, token := env.solveResult }

/-- Token injection step of the dispatcher (src/services/apiClient.ts:388-399):
a truthy solved token is written into the payload's top-level
`clientContext` (when one exists), and a falsy `sessionId` is replaced with
the synthesized `";" + Date.now()`; otherwise the payload object is left
untouched. -/
def injectRecaptchaToken (body : Payload) (token : Option String) (now : Nat) : Payload :=
  match token with
  | none => body
  | some t =>
    match body.clientContext with
    | none => body
    | some cc =>
      { body with clientContext := some { cc with
          recaptchaToken := some t,
          sessionId := some (jsOrStr cc.sessionId (";" ++ toString now)) } }

/-- `requestBody.clientContext?.projectId || requestBody.requests?.[0]?.clientContext?.projectId`. -/
def projectIdFromBodyOf (body : Payload) : Option String :=
  jsOpt (body.clientContext.bind ClientContext.projectId) <|> jsOpt body.firstRequestProjectId

/-- `logContext === 'VEO STATUS'`: the status-poll marker. -/
def isStatusCheckOf (logContext : String) : Bool := logContext == "VEO STATUS"

/-- The dispatcher's generation-class test (src/services/apiClient.ts:369):
`logContext.includes('GENERATE') || logContext.includes('RECIPE') ||
logContext.includes('UPLOAD') || logContext.includes('HEALTH CHECK')`. -/
def isGenerationRequestOf (logContext : String) : Bool :=
  strIncludes logContext "GENERATE" || strIncludes logContext "RECIPE" ||
    strIncludes logContext "UPLOAD" || strIncludes logContext "HEALTH CHECK"

/-- The dispatcher's captcha test (src/services/apiClient.ts:371): GENERATE
or HEALTH CHECK contexts of the veo or nanobanana services. -/
def needsRecaptchaOf (logContext : String) (serviceType : ServiceType) : Bool :=
  (strIncludes logContext "GENERATE" || strIncludes logContext "HEALTH CHECK") &&
    (serviceType == ServiceType.veo || serviceType == ServiceType.nanobanana)

/-- The server URL a dispatch targets: a truthy `overrideServerUrl` wins,
otherwise the per-service proxy-URL selection. -/
def currentServerUrlOf (env : ClientEnv) (serviceType : ServiceType)
    (overrideServerUrl : Option String) : String :=
  match jsOpt overrideServerUrl with
  | some s => s
  | none =>
    match serviceType with
    | .veo => getVeoProxyUrl env
    | .imagen => getImagenProxyUrl env
    | .nanobanana => getNanobanana2ProxyUrl env

/-- The `data` object after the response-body parse: a JSON body keeps its
`error.message` / `message` fields; a non-JSON body is wrapped as
`{error: {message: "Proxy returned non-JSON (status): " + first 100 chars}}`. -/
def dataOfBody (status : Nat) (body : BodyParse) : Option String × Option String :=
  match body with
  | .parsed errMsg msg => (errMsg, msg)
  | .raw text =>
      (some ("Proxy returned non-JSON (" ++ toString status ++ "): " ++ strTake text 100), none)

/-- `data.error?.message || data.message || "API call failed (status)"`. -/
def errorMessageOf (status : Nat) (data : Option String × Option String) : String :=
  jsOrStr data.1 (jsOrStr data.2 ("API call failed (" ++ toString status ++ ")"))

/-- The dispatcher's terminal / non-retriable test on a non-2xx response
(src/services/apiClient.ts:490): HTTP 400, or a safety/content-block signal
in the lower-cased error message. -/
def isHardErrorOf (status : Nat) (errorMessage : String) : Bool :=
  status == 400 || strIncludes (strToLower errorMessage) "safety" ||
    strIncludes (strToLower errorMessage) "blocked"

/-- Which credential source ended up labelling the dispatch. -/
inductive TokenSource where
  | specific | personal
  deriving DecidableEq, Repr

/-- The distinct failures `executeProxiedRequest` can throw. -/
inductive DispatchError where
  | authMissing
  | httpTerminal (status : Nat) (errorMessage : String)
  | httpRetriable (errorMessage : String)
  | network (msg : String)
  deriving DecidableEq, Repr

/-- The `Error.message` text each failure is thrown with. -/
def DispatchError.thrownMessage : DispatchError → String
  | .authMissing =>
      "Authentication failed: No Personal Token found. Please go to Settings > Token & API and set your token."
  | .httpTerminal status msg => "[" ++ toString status ++ "] " ++ msg
  | .httpRetriable msg => msg
  | .network m => m

/-- The value a successful dispatch resolves with:
`{ data, successfulToken, successfulServerUrl }` (`data` reduced to the
fields the client reads). -/
structure SuccessData where
  dataErrMsg : Option String
  dataMsg : Option String
  successfulToken : String
  successfulServerUrl : String
  deriving DecidableEq, Repr

/-- Resolution of one dispatch. -/
inductive DispatchResult where
  | ok (v : SuccessData)
  | err (e : DispatchError)
  deriving DecidableEq, Repr

/-- Execution and classification of the single outbound `fetch`
(src/services/apiClient.ts:457-496): a network error is re-thrown; a 2xx
response resolves with the parsed data, token and server URL; a non-2xx
response throws — prefixed with `[status]` (terminal, non-retriable) when
`isHardErrorOf` holds, plain (retriable by the caller) otherwise. -/
def classifyFetch (outcome : FetchOutcome) (finalToken currentServerUrl : String) :
    DispatchResult :=
  match outcome with
  | .networkError m => DispatchResult.err (DispatchError.network m)
  | .response status body =>
    let data := dataOfBody status body
    if 200 ≤ status ∧ status < 300 then
      DispatchResult.ok
        { dataErrMsg := data.1, dataMsg := data.2,
          successfulToken := finalToken, successfulServerUrl := currentServerUrl }
    else
      let errorMessage := errorMessageOf status data
      if isHardErrorOf status errorMessage then
        DispatchResult.err (DispatchError.httpTerminal status errorMessage)
      else
        DispatchResult.err (DispatchError.httpRetriable errorMessage)

/-- Observable behaviour of one `executeProxiedRequest` call: which side
channels fired (slot reservation, captcha solve, usage recording), which
credential sources were consulted, how many outbound provider calls were
made and to which endpoint, the payload as sent and as left in the caller's
hands (the same object — the dispatcher mutates it in place), and the
result. -/
structure DispatchTrace where
  slotCalled : Bool
  captcha : Option CaptchaTrace
  localTokenRead : Bool
  dbFetchCalled : Bool
  finalToken : Option String
  sourceLabel : TokenSource
  recordCalled : Bool
  providerCalls : Nat
  endpoint : Option String
  sentBody : Option Payload
  callerBodyAfter : Payload
  result : DispatchResult
  deriving DecidableEq, Repr

/-- Shallow embedding of `executeProxiedRequest`
(src/services/apiClient.ts:339-519).

Step order in the source: captcha solve + in-place injection (only for
GENERATE/HEALTH CHECK of veo/nanobanana), advisory slot reservation (for
generation-class contexts), credential resolution
(explicit token → localStorage → profile store, throwing when all fail),
fire-and-forget usage recording (web, with a stored user, not for status
polls), then the single outbound `fetch` and its classification. -/
def executeProxiedRequest (env : ClientEnv) (relativePath : String)
    (serviceType : ServiceType) (requestBody : Payload) (logContext : String)
    (specificToken : Option String) (overrideServerUrl : Option String) : DispatchTrace :=
  let isStatusCheck := isStatusCheckOf logContext
  let currentServerUrl := currentServerUrlOf env serviceType overrideServerUrl
  let isGenerationRequest := isGenerationRequestOf logContext
  let needsRecaptcha := needsRecaptchaOf logContext serviceType
  let captcha : Option CaptchaTrace :=
    if needsRecaptcha then
      some (if serviceType == ServiceType.nanobanana then
              getPersonalRecaptchaToken env (projectIdFromBodyOf requestBody)
            else
              getRecaptchaToken env (projectIdFromBodyOf requestBody))
    else none
  let recaptchaToken : Option String := captcha.bind CaptchaTrace.token
  let bodyAfter := injectRecaptchaToken requestBody (jsOpt recaptchaToken) env.now
  let resolved : Option String × TokenSource × Bool × Bool :=
    match jsOpt specificToken with
    | some t => (some t, TokenSource.specific, false, false)
    | none =>
      match getPersonalTokenLocal env with
      | some t => (some t, TokenSource.personal, true, false)
      | none =>
        match getFreshPersonalTokenFromDB env with
        | some t => (some t, TokenSource.personal, true, true)
        | none => (none, TokenSource.specific, true, true)
  match resolved.1 with
  | none =>
    { slotCalled := isGenerationRequest, captcha := captcha,
      localTokenRead := resolved.2.2.1, dbFetchCalled := resolved.2.2.2,
      finalToken := none, sourceLabel := resolved.2.1,
      recordCalled := false, providerCalls := 0, endpoint := none,
      sentBody := none, callerBodyAfter := bodyAfter,
      result := DispatchResult.err DispatchError.authMissing }
  | some finalToken =>
    let currentUser := getCurrentUserInternal env
    let recordCalled :=
      !env.isElectron && currentUser.isSome && !currentServerUrl.isEmpty && !isStatusCheck
    let isLocalhostServer := strIncludes currentServerUrl "localhost:3001"
    let endpoint :=
      if env.isElectron || !isLocalhostServer then
        currentServerUrl ++ "/api/" ++ serviceTypeStr serviceType ++ relativePath
      else
        "/api/" ++ serviceTypeStr serviceType ++ relativePath
    let result := classifyFetch env.fetchOutcome finalToken currentServerUrl
    { slotCalled := isGenerationRequest, captcha := captcha,
      localTokenRead := resolved.2.2.1, dbFetchCalled := resolved.2.2.2,
      finalToken := some finalToken, sourceLabel := resolved.2.1,
      recordCalled := recordCalled, providerCalls := 1, endpoint := some endpoint,
      sentBody := some bodyAfter, callerBodyAfter := bodyAfter, result := result }

/-! ### Parallel sibling endpoint sampling
(`handleGenerate`, src/components/views/Nanobanana2GenerationView.tsx:351-379) -/

/-- The remote pool: `UI_SERVER_LIST` urls with every localhost entry
filtered out. -/
def remotePool (uiServerList : List String) : List String :=
  uiServerList.filter (fun url => !(strIncludes url "localhost"))

/-- `selectedServer?.includes('localhost')` coerced to a boolean. -/
def isLocalhostSelection (selectedServer : Option String) : Bool :=
  match selectedServer with
  | some s => strIncludes s "localhost"
  | none => false

/-- `Math.floor(Math.random() * len)` where the random draw is modelled as
`v / M` for a granularity `M` and `v < M`: the selected index is
`⌊v·len / M⌋`. -/
def sampleIndex (M len v : Nat) : Nat := v * len / M

/-- Shallow embedding of the server-selection loop of `handleGenerate`:
with a localhost selection every sibling gets the selected server; otherwise
each sibling `i` independently draws `u i` and indexes the remote pool with
`sampleIndex`; an empty pool leaves every sibling `undefined` (deferring to
the per-request default selection). -/
def pickServerUrls (uiServerList : List String) (selectedServer : Option String)
    (numberOfImages M : Nat) (u : Nat → Nat) : List (Option String) :=
  if isLocalhostSelection selectedServer then
    (List.range numberOfImages).map (fun _ => selectedServer)
  else
    let availableServers := remotePool uiServerList
    if availableServers.length > 0 then
      (List.range numberOfImages).map
        (fun i => some (availableServers.getD (sampleIndex M availableServers.length (u i)) ""))
    else
      (List.range numberOfImages).map (fun _ => none)

example :
    pickServerUrls ["http://localhost:3001", "https://s1.monoklix.com", "https://s2.monoklix.com"]
      none 3 10 (fun i => 3 * i) =
      [some "https://s1.monoklix.com", some "https://s1.monoklix.com",
       some "https://s2.monoklix.com"] := by decide

example :
    pickServerUrls ["http://localhost:3001", "https://s1.monoklix.com"]
      (some "http://localhost:3001") 2 10 (fun _ => 0) =
      [some "http://localhost:3001", some "http://localhost:3001"] := by decide

/-! Sanity checks of the dispatcher embedding on concrete environments. -/

/-- A concrete populated browser environment used by several checks below. -/
def sampleEnv : ClientEnv :=
  { isElectron := false, isLocalhostHost := false,
    localhostUrl := "http://localhost:3001",
    selectedProxyServer := some "https://s2.monoklix.com",
    currentUserJson := some
      { id := "u1", username := some "alice",
        personalAuthToken := some "PAT", recaptchaToken := some "RKEY" },
    dbPersonalToken := some "DBT", storedProjectId := none,
    cachedUltraReg := none, ultraFetchResult := none,
    masterTokenCache := some "MASTER", masterTokenFetch := none,
    solveResult := some "SOLVED", now := 1700,
    fetchOutcome := .response 200 (.parsed none none), recordFails := false }

/-- A payload with a top-level clientContext lacking a session id. -/
def samplePayload : Payload :=
  { clientContext := some { recaptchaToken := some "", sessionId := none, projectId := none },
    firstRequestProjectId := some "proj9" }

example :
    (executeProxiedRequest sampleEnv "/generate" ServiceType.nanobanana samplePayload
        "NANOBANANA 2 T2I GENERATE" (some "tok") none).sentBody =
      some { clientContext := some
               { recaptchaToken := some "SOLVED", sessionId := some ";1700",
                 projectId := none },
             firstRequestProjectId := some "proj9" } := by decide

example :
    (executeProxiedRequest sampleEnv "/generate" ServiceType.nanobanana samplePayload
        "NANOBANANA 2 T2I GENERATE" (some "tok") none).captcha =
      some { solveCalled := true, keyUsed := some "RKEY", usedMasterKey := false,
             projectIdUsed := some "proj9", token := some "SOLVED" } := by decide

example :
    (executeProxiedRequest sampleEnv "/status" ServiceType.veo samplePayload
        "VEO STATUS" (some "tok") none).slotCalled = false := by decide

example :
    (executeProxiedRequest sampleEnv "/status" ServiceType.veo samplePayload
        "VEO STATUS" (some "tok") none).recordCalled = false := by decide

example :
    (executeProxiedRequest sampleEnv "/upload" ServiceType.veo samplePayload
        "VEO UPLOAD" (some "tok") none).slotCalled = true := by decide

example :
    (executeProxiedRequest sampleEnv "/upload" ServiceType.veo samplePayload
        "VEO UPLOAD" (some "tok") none).captcha = none := by decide

example :
    (executeProxiedRequest { sampleEnv with currentUserJson := none, dbPersonalToken := none }
        "/generate" ServiceType.imagen samplePayload "IMAGEN GENERATE" none none).result =
      DispatchResult.err DispatchError.authMissing := by decide

example :
    (executeProxiedRequest { sampleEnv with
        fetchOutcome := .response 400 (.parsed (some "blocked: unsafe content") none) }
        "/generate" ServiceType.veo samplePayload "VEO GENERATE" (some "tok") none).result =
      DispatchResult.err (DispatchError.httpTerminal 400 "blocked: unsafe content") := by decide

/-! ## Claim theorems -/

/-- A combine request that arrived with exactly one uploaded file. -/
def oneUploadEnv : CombineEnv :=
  { files := ["upload-a"], ffmpegAvailable := true, ffmpegRunSucceeds := true,
    outputCreated := false, now := 42 }

/-- C1: the spec claims every temp file created for a combine job is deleted
on every exit path, the temp-directory count returning to its pre-attempt
value. The code violates this on the fewer-than-2-inputs rejection: a
request carrying exactly one uploaded file is answered 400 while the
uploaded temp file is left on disk (the handler returns before any cleanup),
so the temp directory has one more file than before the attempt. -/
theorem combine_single_upload_leaks :
    (combineHandler oneUploadEnv).response.status = 400
    ∧ leftoverFiles (combineHandler oneUploadEnv) = ["upload-a"] := by
  decide

/-- C2 counterexample: the claim says the slot-reservation call is never
made for plain upload requests, but a dispatch whose log context is
`VEO UPLOAD` (a plain upload) does invoke `request_generation_slot`. -/
theorem slot_reserved_for_plain_upload :
    (executeProxiedRequest sampleEnv "/upload" ServiceType.veo samplePayload
        "VEO UPLOAD" (some "tok") none).slotCalled = true := by
  decide

/-- C2 amended: the slot-reservation call is made exactly when the log
context contains GENERATE, RECIPE, UPLOAD or HEALTH CHECK — so never for the
`VEO STATUS` status poll, but it IS made for plain upload requests. -/
theorem slot_reservation_iff_generation_class
    (env : ClientEnv) (rp : String) (st : ServiceType) (body : Payload)
    (lc : String) (sp ov : Option String) :
    (executeProxiedRequest env rp st body lc sp ov).slotCalled = isGenerationRequestOf lc
    ∧ isGenerationRequestOf "VEO STATUS" = false := by
  refine ⟨?_, by decide⟩
  unfold executeProxiedRequest
  cases jsOpt sp <;>
    cases getPersonalTokenLocal env <;>
      cases getFreshPersonalTokenFromDB env <;> simp

/-- `sampleEnv` whose outbound call fails with a plain HTTP 500. -/
def failing500Env : ClientEnv :=
  { sampleEnv with fetchOutcome := .response 500 (.parsed (some "boom") none) }

/-- C3 counterexample: the claim says the endpoint-usage recording happens
only when the outbound call succeeds, but on a dispatch whose outbound call
fails with HTTP 500 the recording side effect has already been performed. -/
theorem usage_recorded_despite_failed_call :
    (executeProxiedRequest failing500Env
        "/generate" ServiceType.veo samplePayload "VEO GENERATE" (some "tok") none).recordCalled
        = true
    ∧ (executeProxiedRequest failing500Env
        "/generate" ServiceType.veo samplePayload "VEO GENERATE" (some "tok") none).result
        = DispatchResult.err (DispatchError.httpRetriable "boom") := by
  decide

/-- C3 amended: the endpoint-usage recording fires for every non-Electron,
non-status-poll dispatch that passes credential resolution towards a
nonempty server URL — before and regardless of the outbound call's outcome —
and a failure of the (unawaited) recording leaves the entire dispatch trace,
in particular the returned result, unchanged. -/
theorem usage_recording_independent_of_outcome
    (env : ClientEnv) (rp : String) (st : ServiceType) (body : Payload)
    (lc : String) (sp ov : Option String) :
    (executeProxiedRequest env rp st body lc sp ov).recordCalled =
      ((executeProxiedRequest env rp st body lc sp ov).finalToken.isSome &&
        !env.isElectron && (getCurrentUserInternal env).isSome &&
        !(currentServerUrlOf env st ov).isEmpty && !(isStatusCheckOf lc))
    ∧ executeProxiedRequest { env with recordFails := true } rp st body lc sp ov =
        executeProxiedRequest { env with recordFails := false } rp st body lc sp ov := by
  constructor
  · unfold executeProxiedRequest
    cases jsOpt sp <;>
      cases getPersonalTokenLocal env <;>
        cases getFreshPersonalTokenFromDB env <;> simp [Bool.and_assoc]
  · cases env
    rfl

/-- C4: credential resolution tries the explicit per-call token, then the
locally cached personal token, then the profile-store fetch, each only when
the previous source yielded nothing; with all three empty the dispatch fails
with the authentication-missing error and no outbound provider call is
made. -/
theorem credential_resolution_precedence
    (env : ClientEnv) (rp : String) (st : ServiceType) (body : Payload)
    (lc : String) (sp ov : Option String) :
    (∀ t, jsOpt sp = some t →
      (executeProxiedRequest env rp st body lc sp ov).finalToken = some t ∧
      (executeProxiedRequest env rp st body lc sp ov).localTokenRead = false ∧
      (executeProxiedRequest env rp st body lc sp ov).dbFetchCalled = false ∧
      (executeProxiedRequest env rp st body lc sp ov).sourceLabel = TokenSource.specific)
    ∧ (∀ t, jsOpt sp = none → getPersonalTokenLocal env = some t →
      (executeProxiedRequest env rp st body lc sp ov).finalToken = some t ∧
      (executeProxiedRequest env rp st body lc sp ov).dbFetchCalled = false ∧
      (executeProxiedRequest env rp st body lc sp ov).sourceLabel = TokenSource.personal)
    ∧ (jsOpt sp = none → getPersonalTokenLocal env = none →
      (executeProxiedRequest env rp st body lc sp ov).dbFetchCalled = true ∧
      (executeProxiedRequest env rp st body lc sp ov).finalToken =
        getFreshPersonalTokenFromDB env)
    ∧ (jsOpt sp = none → getPersonalTokenLocal env = none →
       getFreshPersonalTokenFromDB env = none →
      (executeProxiedRequest env rp st body lc sp ov).result =
        DispatchResult.err DispatchError.authMissing ∧
      (executeProxiedRequest env rp st body lc sp ov).providerCalls = 0 ∧
      (executeProxiedRequest env rp st body lc sp ov).sentBody = none ∧
      (executeProxiedRequest env rp st body lc sp ov).endpoint = none) := by
  refine ⟨?_, ?_, ?_, ?_⟩
  · intro t hsp
    unfold executeProxiedRequest
    simp [hsp]
  · intro t hsp hl
    unfold executeProxiedRequest
    simp [hsp, hl]
  · intro hsp hl
    unfold executeProxiedRequest
    cases hd : getFreshPersonalTokenFromDB env <;> simp [hsp, hl, hd]
  · intro hsp hl hd
    unfold executeProxiedRequest
    simp [hsp, hl, hd]

/-- A stored session whose user has no tokens at all, with an empty profile
store behind it. -/
def noCredentialEnv : ClientEnv :=
  { sampleEnv with
      currentUserJson := some
        { id := "u1", username := some "alice",
          personalAuthToken := none, recaptchaToken := none },
      dbPersonalToken := none }

/-- Witness for C4: with no explicit token, no cached token and an empty
profile store, a concrete dispatch fails with the authentication-missing
error and never calls the provider. -/
theorem credential_resolution_precedence_witness :
    (executeProxiedRequest noCredentialEnv "/generate" ServiceType.imagen samplePayload
        "IMAGEN GENERATE" none none).result =
      DispatchResult.err DispatchError.authMissing ∧
    (executeProxiedRequest noCredentialEnv "/generate" ServiceType.imagen samplePayload
        "IMAGEN GENERATE" none none).providerCalls = 0 ∧
    (executeProxiedRequest noCredentialEnv "/generate" ServiceType.imagen samplePayload
        "IMAGEN GENERATE" none none).sentBody = none ∧
    (executeProxiedRequest noCredentialEnv "/generate" ServiceType.imagen samplePayload
        "IMAGEN GENERATE" none none).endpoint = none :=
  (credential_resolution_precedence noCredentialEnv "/generate" ServiceType.imagen
      samplePayload "IMAGEN GENERATE" none none).2.2.2 (by decide) (by decide) (by decide)

/-! Helper lemmas: closed forms of the dispatch-trace fields. -/

/-- The captcha adapter actually consulted by a dispatch. -/
def captchaTraceOf (env : ClientEnv) (st : ServiceType) (body : Payload)
    (lc : String) : Option CaptchaTrace :=
  if needsRecaptchaOf lc st then
    some (if st == ServiceType.nanobanana then
            getPersonalRecaptchaToken env (projectIdFromBodyOf body)
          else
            getRecaptchaToken env (projectIdFromBodyOf body))
  else none

/-- The credential the resolution chain settles on. -/
def resolvedTokenOf (env : ClientEnv) (sp : Option String) : Option String :=
  match jsOpt sp with
  | some t => some t
  | none =>
    match getPersonalTokenLocal env with
    | some t => some t
    | none => getFreshPersonalTokenFromDB env

theorem epr_captcha (env : ClientEnv) (rp : String) (st : ServiceType) (body : Payload)
    (lc : String) (sp ov : Option String) :
    (executeProxiedRequest env rp st body lc sp ov).captcha = captchaTraceOf env st body lc := by
  unfold executeProxiedRequest captchaTraceOf
  cases jsOpt sp <;>
    cases getPersonalTokenLocal env <;>
      cases getFreshPersonalTokenFromDB env <;> simp

theorem epr_callerBodyAfter (env : ClientEnv) (rp : String) (st : ServiceType)
    (body : Payload) (lc : String) (sp ov : Option String) :
    (executeProxiedRequest env rp st body lc sp ov).callerBodyAfter =
      injectRecaptchaToken body
        (jsOpt ((captchaTraceOf env st body lc).bind CaptchaTrace.token)) env.now := by
  unfold executeProxiedRequest captchaTraceOf
  cases jsOpt sp <;>
    cases getPersonalTokenLocal env <;>
      cases getFreshPersonalTokenFromDB env <;> simp

theorem epr_finalToken (env : ClientEnv) (rp : String) (st : ServiceType)
    (body : Payload) (lc : String) (sp ov : Option String) :
    (executeProxiedRequest env rp st body lc sp ov).finalToken = resolvedTokenOf env sp := by
  unfold executeProxiedRequest resolvedTokenOf
  cases jsOpt sp <;>
    cases getPersonalTokenLocal env <;>
      cases getFreshPersonalTokenFromDB env <;> simp

theorem epr_providerCalls (env : ClientEnv) (rp : String) (st : ServiceType)
    (body : Payload) (lc : String) (sp ov : Option String) :
    (executeProxiedRequest env rp st body lc sp ov).providerCalls =
      if (resolvedTokenOf env sp).isSome then 1 else 0 := by
  unfold executeProxiedRequest resolvedTokenOf
  cases jsOpt sp <;>
    cases getPersonalTokenLocal env <;>
      cases getFreshPersonalTokenFromDB env <;> simp

theorem epr_sentBody (env : ClientEnv) (rp : String) (st : ServiceType)
    (body : Payload) (lc : String) (sp ov : Option String) :
    (executeProxiedRequest env rp st body lc sp ov).sentBody =
      if (resolvedTokenOf env sp).isSome then
        some (injectRecaptchaToken body
          (jsOpt ((captchaTraceOf env st body lc).bind CaptchaTrace.token)) env.now)
      else none := by
  unfold executeProxiedRequest resolvedTokenOf captchaTraceOf
  cases jsOpt sp <;>
    cases getPersonalTokenLocal env <;>
      cases getFreshPersonalTokenFromDB env <;> simp

theorem epr_result (env : ClientEnv) (rp : String) (st : ServiceType)
    (body : Payload) (lc : String) (sp ov : Option String) :
    (executeProxiedRequest env rp st body lc sp ov).result =
      (match resolvedTokenOf env sp with
       | none => DispatchResult.err DispatchError.authMissing
       | some t => classifyFetch env.fetchOutcome t (currentServerUrlOf env st ov)) := by
  unfold executeProxiedRequest resolvedTokenOf
  cases jsOpt sp <;>
    cases getPersonalTokenLocal env <;>
      cases getFreshPersonalTokenFromDB env <;> simp

/-- C5: a nanobanana generation or health-check dispatch consults only the
personal-key captcha adapter, which never uses the pooled master key; a
missing user or blank personal key yields a null token without calling the
solver, and in that case the dispatcher proceeds — payload untouched, one
provider call when a credential resolves — instead of throwing. -/
theorem nanobanana_personal_key_only
    (env : ClientEnv) (rp : String) (body : Payload) (lc : String) (sp ov : Option String)
    (hlc : (strIncludes lc "GENERATE" || strIncludes lc "HEALTH CHECK") = true) :
    (executeProxiedRequest env rp ServiceType.nanobanana body lc sp ov).captcha =
        some (getPersonalRecaptchaToken env (projectIdFromBodyOf body))
    ∧ (getPersonalRecaptchaToken env (projectIdFromBodyOf body)).usedMasterKey = false
    ∧ (getCurrentUserInternal env = none →
        (getPersonalRecaptchaToken env (projectIdFromBodyOf body)).token = none ∧
        (getPersonalRecaptchaToken env (projectIdFromBodyOf body)).solveCalled = false)
    ∧ (∀ u, getCurrentUserInternal env = some u →
        (strTrim (jsOrStr u.recaptchaToken "")).isEmpty = true →
        (getPersonalRecaptchaToken env (projectIdFromBodyOf body)).token = none ∧
        (getPersonalRecaptchaToken env (projectIdFromBodyOf body)).solveCalled = false)
    ∧ ((getPersonalRecaptchaToken env (projectIdFromBodyOf body)).token = none →
        (executeProxiedRequest env rp ServiceType.nanobanana body lc sp ov).callerBodyAfter
          = body
        ∧ (∀ t, (executeProxiedRequest env rp ServiceType.nanobanana body lc sp ov).finalToken
              = some t →
            (executeProxiedRequest env rp ServiceType.nanobanana body lc sp ov).providerCalls
              = 1 ∧
            (executeProxiedRequest env rp ServiceType.nanobanana body lc sp ov).sentBody
              = some body)) := by
  have hcap : captchaTraceOf env ServiceType.nanobanana body lc =
      some (getPersonalRecaptchaToken env (projectIdFromBodyOf body)) := by
    simp [captchaTraceOf, needsRecaptchaOf, hlc]
  refine ⟨?_, ?_, ?_, ?_, ?_⟩
  · rw [epr_captcha, hcap]
  · unfold getPersonalRecaptchaToken
    cases getCurrentUserInternal env with
    | none => simp
    | some u => dsimp only; split <;> simp
  · intro h
    unfold getPersonalRecaptchaToken
    rw [h]
    exact ⟨rfl, rfl⟩
  · intro u hu hblank
    unfold getPersonalRecaptchaToken
    rw [hu]
    simp [hblank]
  · intro htok
    constructor
    · rw [epr_callerBodyAfter, hcap]
      simp [htok, injectRecaptchaToken, jsOpt]
    · intro t hft
      rw [epr_finalToken] at hft
      constructor
      · rw [epr_providerCalls, hft]
        rfl
      · rw [epr_sentBody, hft, hcap]
        simp [htok, injectRecaptchaToken, jsOpt]

/-- `sampleEnv` whose stored user has no personal Anti-Captcha key. -/
def noCaptchaKeyEnv : ClientEnv :=
  { sampleEnv with
      currentUserJson := some
        { id := "u1", username := some "alice",
          personalAuthToken := some "PAT", recaptchaToken := none } }

/-- Witness for C5: a concrete nanobanana generation with no personal
captcha key solves nothing, sends the payload untouched, and still makes
exactly one provider call. -/
theorem nanobanana_personal_key_only_witness :
    (executeProxiedRequest noCaptchaKeyEnv "/generate" ServiceType.nanobanana samplePayload
        "NANOBANANA 2 T2I GENERATE" (some "tok") none).callerBodyAfter = samplePayload ∧
    (executeProxiedRequest noCaptchaKeyEnv "/generate" ServiceType.nanobanana samplePayload
        "NANOBANANA 2 T2I GENERATE" (some "tok") none).providerCalls = 1 := by
  have h := nanobanana_personal_key_only noCaptchaKeyEnv "/generate" samplePayload
      "NANOBANANA 2 T2I GENERATE" (some "tok") none (by decide)
  have h5 := h.2.2.2.2 (by decide)
  exact ⟨h5.1, (h5.2 "tok" (by decide)).1⟩

/-- C6: a non-2xx outbound response is classified terminal and
non-retriable exactly when the status is 400 or the lower-cased error
message carries a safety/content-block signal, and the thrown message
carries the provider's error message verbatim (prefixed with the status tag
in the terminal case, bare otherwise); every other non-2xx is surfaced as
a plain retriable error, and the dispatcher performs exactly one outbound
call — no automatic retry. -/
theorem non2xx_classification
    (env : ClientEnv) (rp : String) (st : ServiceType) (body : Payload) (lc : String)
    (sp ov : Option String) (t : String) (status : Nat) (bp : BodyParse)
    (hres : resolvedTokenOf env sp = some t)
    (hf : env.fetchOutcome = .response status bp)
    (hnon : ¬(200 ≤ status ∧ status < 300)) :
    (executeProxiedRequest env rp st body lc sp ov).providerCalls = 1
    ∧ (isHardErrorOf status (errorMessageOf status (dataOfBody status bp)) = true →
        (executeProxiedRequest env rp st body lc sp ov).result =
          DispatchResult.err (DispatchError.httpTerminal status
            (errorMessageOf status (dataOfBody status bp))) ∧
        (DispatchError.httpTerminal status
            (errorMessageOf status (dataOfBody status bp))).thrownMessage =
          "[" ++ toString status ++ "] " ++ errorMessageOf status (dataOfBody status bp))
    ∧ (isHardErrorOf status (errorMessageOf status (dataOfBody status bp)) = false →
        (executeProxiedRequest env rp st body lc sp ov).result =
          DispatchResult.err (DispatchError.httpRetriable
            (errorMessageOf status (dataOfBody status bp))) ∧
        (DispatchError.httpRetriable
            (errorMessageOf status (dataOfBody status bp))).thrownMessage =
          errorMessageOf status (dataOfBody status bp))
    ∧ isHardErrorOf status (errorMessageOf status (dataOfBody status bp)) =
        (status == 400 ||
          strIncludes (strToLower (errorMessageOf status (dataOfBody status bp))) "safety" ||
          strIncludes (strToLower (errorMessageOf status (dataOfBody status bp))) "blocked") := by
  refine ⟨?_, ?_, ?_, rfl⟩
  · rw [epr_providerCalls, hres]
    rfl
  · intro hhard
    refine ⟨?_, rfl⟩
    rw [epr_result, hres]
    simp [classifyFetch, hf, hnon, hhard]
  · intro hsoft
    refine ⟨?_, rfl⟩
    rw [epr_result, hres]
    simp [classifyFetch, hf, hnon, hsoft]

/-- `sampleEnv` whose outbound call returns the content-policy scenario
`400 {"error": {"message": "blocked: unsafe content"}}`. -/
def blocked400Env : ClientEnv :=
  { sampleEnv with
      fetchOutcome := .response 400 (.parsed (some "blocked: unsafe content") none) }

/-- Witness for C6: the content-policy scenario is classified terminal with
the provider's message preserved, after exactly one outbound call. -/
theorem non2xx_classification_witness :
    (executeProxiedRequest blocked400Env "/generate" ServiceType.veo samplePayload
        "VEO GENERATE" (some "tok") none).providerCalls = 1 ∧
    (executeProxiedRequest blocked400Env "/generate" ServiceType.veo samplePayload
        "VEO GENERATE" (some "tok") none).result =
      DispatchResult.err (DispatchError.httpTerminal 400 "blocked: unsafe content") ∧
    (DispatchError.httpTerminal 400 "blocked: unsafe content").thrownMessage =
      "[400] blocked: unsafe content" := by
  have h := non2xx_classification blocked400Env "/generate" ServiceType.veo samplePayload
      "VEO GENERATE" (some "tok") none "tok" 400
      (.parsed (some "blocked: unsafe content") none) (by decide) rfl (by decide)
  have h2 := h.2.1 (by decide)
  exact ⟨h.1, h2.1, h2.2⟩

/-! Arithmetic facts about `sampleIndex`. -/

theorem div_eq_iff_mul_bounds (c j v : Nat) (hc : 0 < c) :
    v / c = j ↔ j * c ≤ v ∧ v < (j + 1) * c := by
  constructor
  · intro h
    refine ⟨?_, (Nat.div_lt_iff_lt_mul hc).mp (by omega)⟩
    calc j * c = v / c * c := by rw [h]
      _ ≤ v := Nat.div_mul_le_self v c
  · rintro ⟨h1, h2⟩
    have ha : j ≤ v / c := (Nat.le_div_iff_mul_le hc).mpr h1
    have hb : v / c < j + 1 := (Nat.div_lt_iff_lt_mul hc).mpr h2
    omega

/-- The sampled index stays inside the pool. -/
theorem sampleIndex_lt (M len v : Nat) (hv : v < M) (hlen : 0 < len) :
    sampleIndex M len v < len := by
  unfold sampleIndex
  have hM : 0 < M := Nat.lt_of_le_of_lt (Nat.zero_le v) hv
  have h1 : v * len < M * len := Nat.mul_lt_mul_of_pos_right hv hlen
  rw [Nat.mul_comm M len] at h1
  exact (Nat.div_lt_iff_lt_mul hM).mpr h1

/-- When the pool size divides the randomness granularity, every pool index
is hit by exactly the same number of draws: the sampling is uniform. -/
theorem sampleIndex_uniform (M len j : Nat) (hlen : 0 < len) (hM : 0 < M)
    (hdvd : len ∣ M) (hj : j < len) :
    ((Finset.range M).filter (fun v => sampleIndex M len v = j)).card = M / len := by
  set c := M / len with hc
  have hMeq : len * c = M := Nat.mul_div_cancel' hdvd
  have hcpos : 0 < c := by
    rcases Nat.eq_zero_or_pos c with h | h
    · rw [h, Nat.mul_zero] at hMeq; omega
    · exact h
  have key : ∀ v, sampleIndex M len v = v / c := fun v => by
    unfold sampleIndex
    rw [← hMeq, Nat.mul_comm v len, Nat.mul_div_mul_left v c hlen]
  have hset : (Finset.range M).filter (fun v => sampleIndex M len v = j) =
      Finset.Ico (j * c) ((j + 1) * c) := by
    ext v
    simp only [Finset.mem_filter, Finset.mem_range, Finset.mem_Ico, key]
    constructor
    · rintro ⟨hvM, hdiv⟩
      exact (div_eq_iff_mul_bounds c j v hcpos).mp hdiv
    · rintro ⟨h1, h2⟩
      refine ⟨?_, (div_eq_iff_mul_bounds c j v hcpos).mpr ⟨h1, h2⟩⟩
      calc v < (j + 1) * c := h2
        _ ≤ len * c := Nat.mul_le_mul_right c hj
        _ = M := hMeq
  rw [hset, Nat.card_Ico, Nat.succ_mul]
  omega

/-- C7: in a non-loopback context with a nonempty remote pool, each of the
`n` parallel siblings gets the pool entry indexed by its own random draw
(with replacement), every element handed out belongs to the remote
(non-loopback) pool, sibling `i`'s choice depends on no draw but its own,
and — whenever the pool size divides the randomness granularity — each pool
entry is selected by exactly the same number of possible draws (uniformity). -/
theorem sibling_sampling_uniform_remote
    (uiServerList : List String) (sel : Option String) (n M : Nat) (u : Nat → Nat)
    (hsel : isLocalhostSelection sel = false)
    (hpool : 0 < (remotePool uiServerList).length)
    (hu : ∀ i, u i < M) :
    (∀ i, i < n →
      (pickServerUrls uiServerList sel n M u)[i]? =
        some (some ((remotePool uiServerList).getD
          (sampleIndex M (remotePool uiServerList).length (u i)) "")))
    ∧ (∀ x ∈ pickServerUrls uiServerList sel n M u,
        ∃ s ∈ remotePool uiServerList, x = some s ∧ strIncludes s "localhost" = false)
    ∧ (∀ v : Nat → Nat, ∀ i, i < n → v i = u i →
        (pickServerUrls uiServerList sel n M v)[i]? =
          (pickServerUrls uiServerList sel n M u)[i]?)
    ∧ ((remotePool uiServerList).length ∣ M →
        ∀ j, j < (remotePool uiServerList).length →
        ((Finset.range M).filter
            (fun v => sampleIndex M (remotePool uiServerList).length v = j)).card =
          M / (remotePool uiServerList).length) := by
  have hM : 0 < M := Nat.lt_of_le_of_lt (Nat.zero_le (u 0)) (hu 0)
  refine ⟨?_, ?_, ?_, ?_⟩
  · intro i hi
    simp [pickServerUrls, hsel, hpool, List.getElem?_map, List.getElem?_range, hi]
  · intro x hx
    simp only [pickServerUrls, hsel, Bool.false_eq_true, if_false, hpool, if_pos,
      List.mem_map, List.mem_range] at hx
    obtain ⟨i, hi, rfl⟩ := hx
    have hidx := sampleIndex_lt M (remotePool uiServerList).length (u i) (hu i) hpool
    refine ⟨(remotePool uiServerList).getD
      (sampleIndex M (remotePool uiServerList).length (u i)) "", ?_, rfl, ?_⟩
    · rw [List.getD_eq_getElem?_getD, List.getElem?_eq_getElem hidx]
      exact List.getElem_mem hidx
    · have hmem : (remotePool uiServerList).getD
          (sampleIndex M (remotePool uiServerList).length (u i)) "" ∈
          remotePool uiServerList := by
        rw [List.getD_eq_getElem?_getD, List.getElem?_eq_getElem hidx]
        exact List.getElem_mem hidx
      have := (List.mem_filter.mp hmem).2
      simpa using this
  · intro v i hi hvi
    simp [pickServerUrls, hsel, hpool, List.getElem?_map, List.getElem?_range, hi, hvi]
  · intro hdvd j hj
    exact sampleIndex_uniform M (remotePool uiServerList).length j hpool hM hdvd hj

/-- The configured UI server pool used by the witness below. -/
def witnessServerList : List String :=
  ["http://localhost:3001", "https://s1.monoklix.com", "https://s2.monoklix.com"]

/-- Witness for C7: with no server selected (a non-loopback browser context),
2 siblings, granularity 10 and both draws equal to 7, both siblings get the
second remote server, and each of the 2 remote servers is hit by exactly 5
of the 10 possible draws. -/
theorem sibling_sampling_uniform_remote_witness :
    (pickServerUrls witnessServerList none 2 10 (fun _ => 7))[0]? =
      some (some "https://s2.monoklix.com") ∧
    ((Finset.range 10).filter
        (fun v => sampleIndex 10 (remotePool witnessServerList).length v = 0)).card = 5 := by
  have h := sibling_sampling_uniform_remote witnessServerList none 2 10 (fun _ => 7)
      (by decide) (by decide) (fun _ => Nat.lt_of_sub_eq_succ rfl)
  constructor
  · have h1 := h.1 0 (by decide)
    exact h1.trans (by decide)
  · have h4 := h.2.2.2 ⟨5, rfl⟩ 0 (by decide)
    exact h4.trans (by decide)

/-- Every file of `l` is dropped by a filter that keeps only entries
absent from `l` itself. -/
theorem filter_not_contains_self (l : List String) :
    l.filter (fun f => !(l.contains f)) = [] := by
  rw [List.filter_eq_nil_iff]
  intro a ha
  simp [List.elem_iff, ha]

/-- C8: with the encoder binary not invocable, every combine request
carrying at least 2 uploaded files is answered `503` with both `error` and
`suggestion` fields, and every uploaded temp file has been unlinked before
that response — no temp file of the job is left on disk. -/
theorem encoder_unavailable_returns_503_and_cleans
    (env : CombineEnv) (hff : env.ffmpegAvailable = false) (hn : 2 ≤ env.files.length) :
    (combineHandler env).response.status = 503
    ∧ (combineHandler env).response.hasErrorField = true
    ∧ (combineHandler env).response.hasSuggestionField = true
    ∧ (combineHandler env).unlinked = env.files
    ∧ leftoverFiles (combineHandler env) = [] := by
  have hlt : ¬ env.files.length < 2 := by omega
  have hres : combineHandler env =
      { response := { status := 503, hasErrorField := true, hasSuggestionField := true,
                      isVideo := false },
        unlinked := env.files, created := env.files } := by
    unfold combineHandler
    simp [hlt, hff]
  rw [hres]
  refine ⟨rfl, rfl, rfl, rfl, ?_⟩
  unfold leftoverFiles
  exact filter_not_contains_self env.files

/-- A combine request with two uploads hitting a missing encoder binary. -/
def noFfmpegEnv : CombineEnv :=
  { files := ["up1", "up2"], ffmpegAvailable := false, ffmpegRunSucceeds := false,
    outputCreated := false, now := 42 }

/-- Witness for C8 at a concrete two-upload request. -/
theorem encoder_unavailable_returns_503_and_cleans_witness :
    (combineHandler noFfmpegEnv).response.status = 503
    ∧ (combineHandler noFfmpegEnv).response.hasErrorField = true
    ∧ (combineHandler noFfmpegEnv).response.hasSuggestionField = true
    ∧ (combineHandler noFfmpegEnv).unlinked = ["up1", "up2"]
    ∧ leftoverFiles (combineHandler noFfmpegEnv) = [] := by
  have h := encoder_unavailable_returns_503_and_cleans noFfmpegEnv (by decide) (by decide)
  exact ⟨h.1, h.2.1, h.2.2.1, h.2.2.2.1, h.2.2.2.2⟩

/-- A concrete relay request whose upstream answers 404 with body `"B"`. -/
def relay404Env : RelayEnv :=
  { urlParam := some "https://storage.googleapis.com/v.mp4",
    upstream := .notOk 404 "Not Found" "B" }

/-- C9 counterexample: the claim says an upstream non-2xx status AND body
are forwarded verbatim; the status is, but the body sent to the caller is a
JSON envelope `{error, details}` embedding the upstream body — not the
upstream body itself. -/
theorem relay_non2xx_body_not_verbatim :
    relayHandler relay404Env =
      [RelayReply.jsonReply 404
        (relayErrorBodyText "Failed to download: Not Found" (some "B"))]
    ∧ relayErrorBodyText "Failed to download: Not Found" (some "B") ≠ "B" := by
  decide

/-- C9 amended: for an upstream non-2xx the relay forwards the status
verbatim but wraps the upstream body under `details` (next to an `error`
field) in a JSON envelope; a transport error of the fetch itself (headers
not yet sent) yields a single 500 JSON response, as does a pipe error before
headers are sent; a pipe error after headers are sent produces no second
response — the truncated stream is all the caller ever gets. -/
theorem relay_error_forwarding (env : RelayEnv) (url : String)
    (hurl : jsOpt env.urlParam = some url) :
    (∀ s st b, env.upstream = .notOk s st b →
      relayHandler env =
        [RelayReply.jsonReply s
          (relayErrorBodyText ("Failed to download: " ++ st) (some b))])
    ∧ (∀ m, env.upstream = .fetchThrows m →
        relayHandler env = [RelayReply.jsonReply 500 (relayErrorBodyText m none)])
    ∧ (∀ ct cl, env.upstream = .ok ct cl (.errorsMid true) →
        relayHandler env = [RelayReply.streamReply (ct.getD "video/mp4") cl.isSome false])
    ∧ (∀ ct cl, env.upstream = .ok ct cl (.errorsMid false) →
        relayHandler env =
          [RelayReply.jsonReply 500 (relayErrorBodyText "Error streaming video" none)]) := by
  refine ⟨?_, ?_, ?_, ?_⟩
  · intro s st b h
    unfold relayHandler
    rw [hurl, h]
  · intro m h
    unfold relayHandler
    rw [hurl, h]
  · intro ct cl h
    unfold relayHandler
    rw [hurl, h]
    rfl
  · intro ct cl h
    unfold relayHandler
    rw [hurl, h]
    rfl

/-- Witness for C9's amended statement at the concrete 404 upstream. -/
theorem relay_error_forwarding_witness :
    relayHandler relay404Env =
      [RelayReply.jsonReply 404
        (relayErrorBodyText "Failed to download: Not Found" (some "B"))] := by
  have h := relay_error_forwarding relay404Env "https://storage.googleapis.com/v.mp4" rfl
  exact h.1 404 "Not Found" "B" rfl

/-- A payload whose clientContext already holds the very token the solver
will return, plus a session id. -/
def preTokenedPayload : Payload :=
  { clientContext := some
      { recaptchaToken := some "SOLVED", sessionId := some "s77", projectId := none },
    firstRequestProjectId := none }

/-- C10 counterexample: the claim says that whenever a captcha token is
obtained and the payload has a top-level clientContext, the caller's payload
differs after dispatch; but when the clientContext already contains exactly
the solved token and a session id, the in-place writes change nothing — the
payload after dispatch equals the payload passed in. -/
theorem payload_unchanged_when_token_matches :
    (executeProxiedRequest sampleEnv "/generate" ServiceType.nanobanana preTokenedPayload
        "NANOBANANA 2 T2I GENERATE" (some "tok") none).captcha =
      some { solveCalled := true, keyUsed := some "RKEY", usedMasterKey := false,
             projectIdUsed := none, token := some "SOLVED" }
    ∧ (executeProxiedRequest sampleEnv "/generate" ServiceType.nanobanana preTokenedPayload
        "NANOBANANA 2 T2I GENERATE" (some "tok") none).callerBodyAfter =
      preTokenedPayload := by
  decide

/-- C10 amended: the dispatcher mutates the caller's payload object in
place: the payload after dispatch is exactly the original with the truthy
solved token written into its top-level clientContext and a falsy sessionId
replaced by the synthesized one; the payload sent outbound is that same
object; without a top-level clientContext the token is silently discarded
and the payload stays untouched; and the caller's payload differs from what
it passed in precisely on such a write whose token differs from the one
already stored. -/
theorem dispatch_payload_mutation
    (env : ClientEnv) (rp : String) (st : ServiceType) (body : Payload) (lc : String)
    (sp ov : Option String) :
    (executeProxiedRequest env rp st body lc sp ov).callerBodyAfter =
      injectRecaptchaToken body
        (jsOpt ((captchaTraceOf env st body lc).bind CaptchaTrace.token)) env.now
    ∧ ((executeProxiedRequest env rp st body lc sp ov).sentBody = none ∨
       (executeProxiedRequest env rp st body lc sp ov).sentBody =
         some (executeProxiedRequest env rp st body lc sp ov).callerBodyAfter)
    ∧ (body.clientContext = none →
        (executeProxiedRequest env rp st body lc sp ov).callerBodyAfter = body)
    ∧ (∀ t cc, jsOpt ((captchaTraceOf env st body lc).bind CaptchaTrace.token) = some t →
        body.clientContext = some cc →
        (executeProxiedRequest env rp st body lc sp ov).callerBodyAfter =
          { body with clientContext := some { cc with
              recaptchaToken := some t,
              sessionId := some (jsOrStr cc.sessionId (";" ++ toString env.now)) } }
        ∧ (cc.recaptchaToken ≠ some t →
            (executeProxiedRequest env rp st body lc sp ov).callerBodyAfter ≠ body)) := by
  refine ⟨epr_callerBodyAfter env rp st body lc sp ov, ?_, ?_, ?_⟩
  · rw [epr_sentBody, epr_callerBodyAfter]
    split
    · right; rfl
    · left; rfl
  · intro h
    rw [epr_callerBodyAfter]
    unfold injectRecaptchaToken
    cases jsOpt ((captchaTraceOf env st body lc).bind CaptchaTrace.token) <;> simp [h]
  · intro t cc htok hcc
    have hca : (executeProxiedRequest env rp st body lc sp ov).callerBodyAfter =
        { body with clientContext := some { cc with
            recaptchaToken := some t,
            sessionId := some (jsOrStr cc.sessionId (";" ++ toString env.now)) } } := by
      rw [epr_callerBodyAfter, htok]
      unfold injectRecaptchaToken
      rw [hcc]
    refine ⟨hca, ?_⟩
    intro hneq heq
    rw [hca] at heq
    apply hneq
    have h1 := congrArg Payload.clientContext heq
    rw [hcc] at h1
    simp only [Option.some.injEq] at h1
    have h2 := congrArg ClientContext.recaptchaToken h1
    simpa using h2.symm

/-- Witness for C10's amended statement: at a concrete dispatch whose
payload held an empty captcha-token slot, the caller's payload after
dispatch differs from the payload passed in. -/
theorem dispatch_payload_mutation_witness :
    (executeProxiedRequest sampleEnv "/generate" ServiceType.nanobanana samplePayload
        "NANOBANANA 2 T2I GENERATE" (some "tok") none).callerBodyAfter ≠ samplePayload := by
  have h := dispatch_payload_mutation sampleEnv "/generate" ServiceType.nanobanana
      samplePayload "NANOBANANA 2 T2I GENERATE" (some "tok") none
  have h4 := h.2.2.2 "SOLVED"
      { recaptchaToken := some "", sessionId := none, projectId := none }
      (by decide) rfl
  exact h4.2 (by decide)
